import Mathlib

/-!
Verification of the MediAudit audit-orchestration and result-normalization
pipeline (src/processors/claim_auditor.py and src/processors/policy_engine.py).

The Python code is shallowly embedded as executable Lean definitions:
  * strings are modelled as Lean String / List Char (Python str semantics such
    as str.strip, substring membership and textwrap.dedent are modelled over
    the ASCII whitespace alphabet; exotic Unicode whitespace, which no claim
    touches, is not distinguished),
  * json.loads is modelled by an executable strict-JSON parser (plus the
    NaN/Infinity extensions Python accepts) producing a Json value tree,
  * Python runtime failures (json.JSONDecodeError, AttributeError, TypeError,
    and the RuntimeError raised for an unconfigured client) are modelled by an
    error type returned in Except,
  * the network call of audit_claim is modelled by a deterministic response
    oracle carried by the client value, together with an outbound-call counter.
-/

/- ----------------------------------------------------------------------------
Character classes.

isPyWs models the whitespace set of Python str.strip() / regex \s over ASCII
(space, tab, newline, carriage return, form feed, vertical tab).
isJsonWs is the JSON whitespace set skipped by json.loads (space, tab,
newline, carriage return).  isSpTab is the [ \t] class used by textwrap.dedent.
---------------------------------------------------------------------------- -/

def isPyWs (c : Char) : Bool :=
  c.toNat = 32 || c.toNat = 9 || c.toNat = 10 || c.toNat = 13 || c.toNat = 12 || c.toNat = 11

def isJsonWs (c : Char) : Bool :=
  c.toNat = 32 || c.toNat = 9 || c.toNat = 10 || c.toNat = 13

def isSpTab (c : Char) : Bool :=
  c.toNat = 32 || c.toNat = 9

def isDig (c : Char) : Bool :=
  48 ≤ c.toNat && c.toNat ≤ 57

def isDig19 (c : Char) : Bool :=
  49 ≤ c.toNat && c.toNat ≤ 57

/- ----------------------------------------------------------------------------
List-of-characters utilities shared by the Python string model.
---------------------------------------------------------------------------- -/

/-- Python str.strip(): drop whitespace from both ends. -/
def pyStripL (l : List Char) : List Char :=
  ((l.dropWhile isPyWs).reverse.dropWhile isPyWs).reverse

/-- Substring containment, the semantics of the Python expression
pat in txt for str operands. -/
def containsSub (pat : List Char) : List Char → Bool
  | [] => pat.isEmpty
  | c :: rest => pat.isPrefixOf (c :: rest) || containsSub pat rest

/-- String-level wrapper for containsSub. -/
def containsStr (pat txt : String) : Bool :=
  containsSub pat.data txt.data

/-- Split a character list at newline characters; always returns at least one
(possibly empty) line, exactly like Python text.split(chr(10)). -/
def splitLines : List Char → List (List Char)
  | [] => [[]]
  | c :: rest =>
    if c = '\n' then [] :: splitLines rest
    else
      match splitLines rest with
      | l :: ls => (c :: l) :: ls
      | [] => [[c]]

/-- Join lines back with newline separators (inverse of splitLines). -/
def joinLines : List (List Char) → List Char
  | [] => []
  | [l] => l
  | l :: ls => l ++ '\n' :: joinLines ls

/- ----------------------------------------------------------------------------
textwrap.dedent model (CPython Lib/textwrap.py):
  1. lines consisting only of [ \t] are normalized to empty lines,
  2. the margin is the longest common [ \t]-prefix of all lines that contain a
     character outside [ \t],
  3. if the margin is nonempty it is removed from the front of every line that
     starts with it.
---------------------------------------------------------------------------- -/

/-- Normalization of a whitespace-only line (the whitespace-only regex
substitution of textwrap.dedent applied to a single line). -/
def clearLine (l : List Char) : List Char :=
  if !l.isEmpty && l.all isSpTab then [] else l

/-- The [ \t]-indent of a line. -/
def lineIndent (l : List Char) : List Char :=
  l.takeWhile isSpTab

/-- Does the line contain a character outside [ \t]?  Only such lines
contribute an indent to the margin computation. -/
def hasStuff (l : List Char) : Bool :=
  l.any (fun c => !isSpTab c)

/-- Longest common prefix of two character lists. -/
def commonPre : List Char → List Char → List Char
  | a :: as, b :: bs => if a = b then a :: commonPre as bs else []
  | _, _ => []

/-- The dedent margin of a list of (already whitespace-normalized) lines. -/
def margin (lines : List (List Char)) : List Char :=
  match (lines.filter hasStuff).map lineIndent with
  | [] => []
  | i :: is => is.foldl commonPre i

/-- Removal of the margin from one line (lines not starting with the margin,
necessarily empty ones, are left alone). -/
def removeMargin (m l : List Char) : List Char :=
  if m.isPrefixOf l then l.drop m.length else l

/-- The composition of steps 1 and 3-with-empty-margin of textwrap.dedent:
whitespace-only lines are blanked, everything else is untouched.  This is the
whole effect of dedent whenever the computed margin is empty. -/
def clearBlank (text : List Char) : List Char :=
  joinLines ((splitLines text).map clearLine)

/-- Full textwrap.dedent model. -/
def dedentL (text : List Char) : List Char :=
  let ls := (splitLines text).map clearLine
  let m := margin ls
  if m = [] then joinLines ls else joinLines (ls.map (removeMargin m))

/- ----------------------------------------------------------------------------
JSON value tree, the result type of the json.loads model.

Numbers keep their source lexeme (the normalization code never inspects
numeric values, only shapes, so the lexeme is a faithful abstraction that
avoids floating point).  Objects are insertion-ordered key/value lists, as
CPython dicts are; the parser replaces the value in place on duplicate keys,
as dict assignment does.
---------------------------------------------------------------------------- -/

inductive Json where
  | null : Json
  | bool (b : Bool) : Json
  | num (lexeme : String) : Json
  | str (s : String) : Json
  | arr (elems : List Json) : Json
  | obj (fields : List (String × Json)) : Json
deriving Repr

/-- Is the value a Python list, i.e. the isinstance(v, list) test? -/
def isArrJ : Json → Bool
  | .arr _ => true
  | _ => false

/-- dict assignment d[k] = v: replace in place if the key exists (keeping its
position), else append. -/
def objInsert : List (String × Json) → String → Json → List (String × Json)
  | [], k, v => [(k, v)]
  | (k', v') :: rest, k, v =>
    if k' = k then (k', v) :: rest else (k', v') :: objInsert rest k v

/-- Key membership test (the expression k in d for a dict d). -/
def hasKeyB (fields : List (String × Json)) (k : String) : Bool :=
  fields.any (fun kv => kv.1 == k)

/-- dict lookup d.get(k) as an Option. -/
def objFind (fields : List (String × Json)) (k : String) : Option Json :=
  (fields.find? (fun kv => kv.1 == k)).map (fun kv => kv.2)

/- ----------------------------------------------------------------------------
json.loads model: a strict JSON parser (RFC 8259 grammar, plus the NaN,
Infinity and -Infinity extensions CPython's json module accepts by default).
The recursion is fuelled; the top entry point supplies length + 1 fuel, which
is sufficient because every recursive call consumes at least one character
first.  Modelled narrowing: a \uXXXX escape denoting a lone surrogate is
rejected (Lean Char cannot carry lone surrogates); no claim involves one.
---------------------------------------------------------------------------- -/

/-- Value of one hex digit. -/
def hexVal (c : Char) : Option Nat :=
  if 48 ≤ c.toNat && c.toNat ≤ 57 then some (c.toNat - 48)
  else if 97 ≤ c.toNat && c.toNat ≤ 102 then some (c.toNat - 87)
  else if 65 ≤ c.toNat && c.toNat ≤ 70 then some (c.toNat - 55)
  else none

/-- Single-character escapes of JSON strings. -/
def unescape (c : Char) : Option Char :=
  if c = '"' then some '"'
  else if c = '\\' then some '\\'
  else if c = '/' then some '/'
  else if c = 'b' then some (Char.ofNat 8)
  else if c = 'f' then some (Char.ofNat 12)
  else if c = 'n' then some '\n'
  else if c = 'r' then some '\r'
  else if c = 't' then some '\t'
  else none

/-- Body of a JSON string literal, entered after the opening quote; returns
the decoded characters and the input remaining after the closing quote.
Unescaped control characters are rejected (json.loads strict mode). -/
def parseStringBody : List Char → Option (List Char × List Char)
  | [] => none
  | '"' :: rest => some ([], rest)
  | '\\' :: 'u' :: a :: b :: c :: d :: rest => do
    let ha ← hexVal a
    let hb ← hexVal b
    let hc ← hexVal c
    let hd ← hexVal d
    let n := ((ha * 16 + hb) * 16 + hc) * 16 + hd
    if 0xD800 ≤ n && n < 0xE000 then none
    else do
      let (s, r) ← parseStringBody rest
      pure (Char.ofNat n :: s, r)
  | '\\' :: 'u' :: _ => none
  | '\\' :: e :: rest => do
    let ch ← unescape e
    let (s, r) ← parseStringBody rest
    pure (ch :: s, r)
  | ['\\'] => none
  | c :: rest =>
    if c.toNat < 32 then none
    else do
      let (s, r) ← parseStringBody rest
      pure (c :: s, r)

/-- Maximal run of decimal digits. -/
def digitSpan (l : List Char) : List Char × List Char :=
  (l.takeWhile isDig, l.dropWhile isDig)

/-- JSON number token: -? (0 | [1-9][0-9]*) (. [0-9]+)? ([eE] [+-]? [0-9]+)?.
Returns the lexeme and the remaining input; optional parts that do not match
are simply not consumed, as in the NUMBER_RE regex of CPython's json module. -/
def parseNumberL (l : List Char) : Option (List Char × List Char) :=
  let (sign, l1) :=
    match l with
    | '-' :: t => (['-'], t)
    | _ => ([], l)
  match l1 with
  | c :: t =>
    if c = '0' ∨ isDig19 c then
      let (intRest, l2) := if c = '0' then ([], t) else digitSpan t
      let intPart := c :: intRest
      let (fracPart, l3) :=
        match l2 with
        | '.' :: u =>
          match digitSpan u with
          | (d :: ds, l3') => ('.' :: d :: ds, l3')
          | ([], _) => ([], l2)
        | _ => ([], l2)
      let (expPart, l4) :=
        match l3 with
        | e :: u =>
          if e = 'e' ∨ e = 'E' then
            let (sgn, u1) :=
              match u with
              | s :: u' => if s = '+' ∨ s = '-' then ([s], u') else ([], u)
              | [] => ([], u)
            match digitSpan u1 with
            | (d :: ds, l4') => (e :: (sgn ++ d :: ds), l4')
            | ([], _) => ([], l3)
          else ([], l3)
        | [] => ([], l3)
      some (sign ++ intPart ++ fracPart ++ expPart, l4)
    else none
  | [] => none

/-- Literal keyword match. -/
def expectChars : List Char → List Char → Option (List Char)
  | [], l => some l
  | e :: es, c :: l => if c = e then expectChars es l else none
  | _ :: _, [] => none

mutual

/-- One JSON value, dispatched on the first character exactly like the C/py
scanner of the json module. -/
def parseValue : Nat → List Char → Option (Json × List Char)
  | 0, _ => none
  | _ + 1, [] => none
  | fuel + 1, c :: rest =>
    if c = '{' then
      let r := (c :: rest).tail.dropWhile isJsonWs
      match r with
      | '}' :: t => some (.obj [], t)
      | _ =>
        match parseMembers fuel r [] with
        | some (fields, t) => some (.obj fields, t)
        | none => none
    else if c = '[' then
      let r := rest.dropWhile isJsonWs
      match r with
      | ']' :: t => some (.arr [], t)
      | _ =>
        match parseElems fuel r [] with
        | some (elems, t) => some (.arr elems, t)
        | none => none
    else if c = '"' then
      match parseStringBody rest with
      | some (s, r) => some (.str ⟨s⟩, r)
      | none => none
    else if c = 't' then
      (expectChars ['r', 'u', 'e'] rest).map (fun r => (.bool true, r))
    else if c = 'f' then
      (expectChars ['a', 'l', 's', 'e'] rest).map (fun r => (.bool false, r))
    else if c = 'n' then
      (expectChars ['u', 'l', 'l'] rest).map (fun r => (.null, r))
    else if c = 'N' then
      (expectChars ['a', 'N'] rest).map (fun r => (.num "NaN", r))
    else if c = 'I' then
      (expectChars ['n', 'f', 'i', 'n', 'i', 't', 'y'] rest).map
        (fun r => (.num "Infinity", r))
    else if c = '-' ∧ rest.head? = some 'I' then
      (expectChars ['I', 'n', 'f', 'i', 'n', 'i', 't', 'y'] rest).map
        (fun r => (.num "-Infinity", r))
    else if c = '-' ∨ isDig c then
      match parseNumberL (c :: rest) with
      | some (lx, r) => some (.num ⟨lx⟩, r)
      | none => none
    else none

/-- Members of an object, positioned at a key (whitespace already skipped);
acc carries the fields parsed so far. -/
def parseMembers : Nat → List Char → List (String × Json) →
    Option (List (String × Json) × List Char)
  | 0, _, _ => none
  | fuel + 1, l, acc =>
    match l with
    | '"' :: rest =>
      match parseStringBody rest with
      | none => none
      | some (key, r1) =>
        match r1.dropWhile isJsonWs with
        | ':' :: r3 =>
          match parseValue fuel (r3.dropWhile isJsonWs) with
          | none => none
          | some (v, r4) =>
            let acc' := objInsert acc ⟨key⟩ v
            match r4.dropWhile isJsonWs with
            | ',' :: r6 => parseMembers fuel (r6.dropWhile isJsonWs) acc'
            | '}' :: r6 => some (acc', r6)
            | _ => none
        | _ => none
    | _ => none

/-- Elements of an array, positioned at a value (whitespace already
skipped). -/
def parseElems : Nat → List Char → List Json → Option (List Json × List Char)
  | 0, _, _ => none
  | fuel + 1, l, acc =>
    match parseValue fuel l with
    | none => none
    | some (v, r1) =>
      match r1.dropWhile isJsonWs with
      | ',' :: r2 => parseElems fuel (r2.dropWhile isJsonWs) (acc ++ [v])
      | ']' :: r2 => some (acc ++ [v], r2)
      | _ => none

end

/-- json.loads on a character list: skip surrounding JSON whitespace, parse
one value, and require only whitespace afterwards. -/
def parseJsonL (l : List Char) : Option Json :=
  match parseValue (l.length + 1) (l.dropWhile isJsonWs) with
  | some (v, rest) => if rest.all isJsonWs then some v else none
  | none => none

/- ----------------------------------------------------------------------------
Code-fence stripping, claim_auditor.py lines 255-257:

    raw = response.choices[0].message.content.strip()
    raw = re.sub(r"^BTBTBT(?:json)?\s*", "", raw, flags=re.IGNORECASE)
    raw = re.sub(r"\s*BTBTBT$", "", raw)

(BT stands for a backtick above).  The input of the second substitution never
ends in a newline (the text was stripped and the first substitution removes
only a prefix), so the dollar anchor coincides with end-of-string here.
---------------------------------------------------------------------------- -/

/-- Case-insensitive test for a json language tag: do the first four
characters spell json in any letter case?  Written with nested matches so
that a failing first letter decides the test without inspecting the rest. -/
def jsonTagCI : List Char → Bool
  | [] => false
  | c1 :: rest1 =>
    if c1 == 'j' || c1 == 'J' then
      match rest1 with
      | [] => false
      | c2 :: rest2 =>
        if c2 == 's' || c2 == 'S' then
          match rest2 with
          | [] => false
          | c3 :: rest3 =>
            if c3 == 'o' || c3 == 'O' then
              match rest3 with
              | [] => false
              | c4 :: _ => c4 == 'n' || c4 == 'N'
            else false
        else false
    else false

/-- First substitution: a leading triple-backtick fence, an optional json tag
(any letter case), and any following whitespace run are removed. -/
def stripLeadFenceL (l : List Char) : List Char :=
  match l with
  | '`' :: '`' :: '`' :: rest =>
    (if jsonTagCI rest then rest.drop 4 else rest).dropWhile isPyWs
  | _ => l

/-- Second substitution: a trailing triple-backtick fence and any whitespace
run before it are removed. -/
def stripTrailFenceL (l : List Char) : List Char :=
  match l.reverse with
  | '`' :: '`' :: '`' :: rest => (rest.dropWhile isPyWs).reverse
  | _ => l

/-- Lines 255-257 composed: strip, leading-fence substitution, trailing-fence
substitution. -/
def stripFencesL (l : List Char) : List Char :=
  stripTrailFenceL (stripLeadFenceL (pyStripL l))

/- ----------------------------------------------------------------------------
Response normalization, claim_auditor.py lines 255-277.

AuditError models the Python exceptions that can escape audit_claim:
  unconfigured       - RuntimeError of the missing-client guard (line 234),
  malformedResponse  - json.JSONDecodeError from json.loads (line 259),
  attributeError     - AttributeError from calling .values() or .get on a
                       parsed value that is not a dict (lines 264, 274-275),
  typeError          - TypeError from the expression "rows" not in parsed when
                       the parsed value is not iterable (line 262), or from
                       len() on an unsized value (line 274).
---------------------------------------------------------------------------- -/

inductive AuditError where
  | unconfigured : AuditError
  | malformedResponse : AuditError
  | attributeError : AuditError
  | typeError : AuditError
deriving Repr, DecidableEq

/-- The synthesized fallback eligibility object of lines 265-269. -/
def FALLBACK_ELIGIBILITY : Json :=
  .obj [("verdict", .str "Unknown"),
        ("summary", .str "Could not determine eligibility."),
        ("next_steps", .arr [.str "Please review manually."])]

/-- Python equality between a parsed JSON value and a str (only a str can
compare equal). -/
def jsonEqStr (v : Json) (k : String) : Bool :=
  match v with
  | .str s => s == k
  | _ => false

/-- The Python expression "rows" not in parsed, whose meaning depends on the
runtime type of parsed: key test for a dict, element test for a list,
substring test for a str, TypeError otherwise. -/
def pyRowsNotIn (parsed : Json) : Except AuditError Bool :=
  match parsed with
  | .obj fields => .ok (!(hasKeyB fields "rows"))
  | .arr elems => .ok (!(elems.any (fun e => jsonEqStr e "rows")))
  | .str s => .ok (!(containsSub "rows".data s.data))
  | _ => .error .typeError

/-- Lines 262-270: if "rows" is not in the parsed value, rebuild it from the
first list-valued field and the eligibility field (or the fallback); calling
.values() on a non-dict raises AttributeError. -/
def normalizeParsed (parsed : Json) : Except AuditError Json :=
  match pyRowsNotIn parsed with
  | .error e => .error e
  | .ok false => .ok parsed
  | .ok true =>
    match parsed with
    | .obj fields =>
      let rows := ((fields.find? (fun kv => isArrJ kv.2)).map (fun kv => kv.2)).getD (.arr [])
      let eligibility := (objFind fields "eligibility").getD FALLBACK_ELIGIBILITY
      .ok (.obj [("rows", rows), ("eligibility", eligibility)])
    | _ => .error .attributeError

/-- The parse stage applied to the raw response content: strip, remove fences,
json.loads. -/
def parseStage (content : String) : Option Json :=
  parseJsonL (stripFencesL content.data)

/-- The Response Normalizer (claim_auditor.py lines 255-270): fence-stripped
parse followed by the shape repair; a parse failure is the MalformedResponse
error kind. -/
def normalizeResponse (content : String) : Except AuditError Json :=
  match parseStage content with
  | none => .error .malformedResponse
  | some parsed => normalizeParsed parsed

/- ----------------------------------------------------------------------------
The logging call of lines 272-276 evaluates
    len(parsed.get("rows", [])) and parsed.get("eligibility", {}).get("verdict", "?")
eagerly, so it can itself raise AttributeError or TypeError; audit_claim
executes it between normalization and return.
---------------------------------------------------------------------------- -/

/-- v.get(k, dflt): AttributeError unless v is a dict. -/
def pyGetJ (v : Json) (k : String) (dflt : Json) : Except AuditError Json :=
  match v with
  | .obj fields => .ok ((objFind fields k).getD dflt)
  | _ => .error .attributeError

/-- len(v): TypeError unless v is sized (list, dict or str). -/
def pyLenJ (v : Json) : Except AuditError Nat :=
  match v with
  | .arr l => .ok l.length
  | .obj f => .ok f.length
  | .str s => .ok s.data.length
  | _ => .error .typeError

/-- Argument evaluation of the logger.info call at lines 272-276. -/
def logAuditComplete (parsed : Json) : Except AuditError Unit := do
  let rows ← pyGetJ parsed "rows" (.arr [])
  let _ ← pyLenJ rows
  let elig ← pyGetJ parsed "eligibility" (.obj [])
  let _ ← pyGetJ elig "verdict" (.str "?")
  pure ()

/- ----------------------------------------------------------------------------
Policy baseline model, src/processors/policy_engine.py.

GENERALISED_POLICY is transcribed field by field from the module constant
(lines 28-148).  The BMI bounds are float literals in the source; they are
held here as their display strings (the only use the rendered text makes of
them), keeping the embedding free of floating point.
---------------------------------------------------------------------------- -/

structure EligibilityRule where
  min_age_years : Nat
  max_age_years : Nat
  bmi_min : String
  bmi_max : String
  notes : String

structure WaitingPeriods where
  initial_waiting_days : Nat
  pre_existing_disease_years : Nat
  specific_illness_months : List (String × Nat)
  maternity_months : Nat
  notes : String

structure CopayRules where
  default_copay_percent : Nat
  senior_citizen_copay_percent : Nat
  non_network_hospital_copay_percent : Nat
  pre_existing_copay_percent : Nat

structure PreExistingConditions where
  definition : String
  common_peds : List String
  waiting_period_years : Nat
  notes : String

structure NetworkRules where
  cashless_at_network_hospitals : Bool
  reimbursement_timeline_days : Nat
  pre_auth_required_above_inr : Nat
  post_hospitalisation_days : Nat
  pre_hospitalisation_days : Nat

structure PolicyBaseline where
  policy_name : String
  effective_date : String
  eligibility : EligibilityRule
  waiting_periods : WaitingPeriods
  sub_limits : List (String × Nat)
  copay : CopayRules
  exclusions : List String
  pre_existing_conditions : PreExistingConditions
  network : NetworkRules
  deductible_inr : Nat
  sum_insured_options_inr : List Nat
  default_sum_insured_inr : Nat

def GENERALISED_POLICY : PolicyBaseline :=
  { policy_name := "MediAudit Generalised Health Insurance Baseline v1.0"
    effective_date := "2024-01-01"
    eligibility :=
      { min_age_years := 18
        max_age_years := 65
        bmi_min := "15.0"
        bmi_max := "40.0"
        notes := "Applicants outside the age or BMI range require specialist underwriting approval and are not auto-approved." }
    waiting_periods :=
      { initial_waiting_days := 30
        pre_existing_disease_years := 2
        specific_illness_months :=
          [("cataract", 24), ("hernia", 24), ("knee_replacement", 24),
           ("hip_replacement", 24), ("varicose_veins", 12), ("sinusitis", 12),
           ("piles_fistula", 12), ("kidney_stones", 12), ("hysterectomy", 24),
           ("joint_replacement", 24)]
        maternity_months := 9
        notes := "Waiting periods are counted from the first policy inception date, not renewal dates." }
    sub_limits :=
      [("room_rent_per_day_inr", 5000), ("icu_rent_per_day_inr", 10000),
       ("ambulance_per_event_inr", 2000), ("cataract_per_eye_inr", 40000),
       ("dental_treatment_inr", 0), ("cosmetic_surgery_inr", 0),
       ("ayush_treatment_inr", 20000), ("mental_health_inr", 50000),
       ("organ_donor_inr", 100000), ("domiciliary_treatment_inr", 20000)]
    copay :=
      { default_copay_percent := 0
        senior_citizen_copay_percent := 20
        non_network_hospital_copay_percent := 20
        pre_existing_copay_percent := 10 }
    exclusions :=
      ["Cosmetic or aesthetic treatments",
       "Self-inflicted injuries",
       "War, terrorism, or nuclear hazard injuries",
       "Dental treatment (except accidental)",
       "Obesity treatment or weight-loss surgery",
       "Experimental or unproven treatments",
       "Substance abuse or alcoholism treatment",
       "Fertility treatments and IVF",
       "Spectacles, contact lenses, hearing aids",
       "Non-allopathic treatment beyond AYUSH sub-limit",
       "Refractive error correction (LASIK) below -7.5 dioptre",
       "Pregnancy termination (unless medically necessary)",
       "Congenital external diseases (if detected at birth)",
       "HIV/AIDS and sexually transmitted diseases"]
    pre_existing_conditions :=
      { definition := "Any condition, ailment, or injury or related condition(s) for which the insured had signs/symptoms, or was diagnosed, or received medical advice / treatment within 48 months prior to policy inception."
        common_peds :=
          ["Diabetes Mellitus (Type 1 & 2)",
           "Hypertension / High Blood Pressure",
           "Asthma",
           "Chronic Obstructive Pulmonary Disease (COPD)",
           "Thyroid disorders",
           "Cardiac conditions (IHD, heart attack history)",
           "Chronic kidney disease",
           "Cancer (within 5 years of remission)",
           "Epilepsy",
           "Arthritis (Rheumatoid)"]
        waiting_period_years := 2
        notes := "PEDs are covered after the waiting period with standard benefits. Undisclosed PEDs may result in claim repudiation." }
    network :=
      { cashless_at_network_hospitals := true
        reimbursement_timeline_days := 15
        pre_auth_required_above_inr := 25000
        post_hospitalisation_days := 60
        pre_hospitalisation_days := 30 }
    deductible_inr := 0
    sum_insured_options_inr := [200000, 300000, 500000, 1000000, 2500000]
    default_sum_insured_inr := 500000 }

/-- Python format spec {:,} on a non-negative integer: thousands separated by
commas, grouped in threes from the right. -/
def commafy (n : Nat) : String :=
  ⟨(List.intercalate [','] ((toString n).data.reverse.toChunks 3)).reverse⟩

/-- str.replace of underscores by spaces (used on illness keys). -/
def underscoreToSpace (s : String) : String :=
  ⟨s.data.map (fun c => if c = '_' then ' ' else c)⟩

/-- String-level str.strip(). -/
def pyStripStr (s : String) : String :=
  ⟨pyStripL s.data⟩

/-- Dict-style lookup in the sub_limits mapping (total because the renderer
only reads keys that are present). -/
def subLimit (k : String) : Nat :=
  ((GENERALISED_POLICY.sub_limits.find? (fun kv => kv.1 == k)).map (fun kv => kv.2)).getD 0

/-- get_policy_as_prompt_text() of policy_engine.py lines 221-274: the
compact prompt rendering of the baseline, transcribed interpolation by
interpolation from the f-string (chr(10) is the newline character). -/
def get_policy_as_prompt_text : String :=
  let p := GENERALISED_POLICY
  let e := p.eligibility
  let w := p.waiting_periods
  let c := p.copay
  let illness_list :=
    String.intercalate "; "
      (w.specific_illness_months.map
        (fun kv => underscoreToSpace kv.1 ++ " (" ++ toString kv.2 ++ "m)"))
  pyStripStr
    ("\nPOLICY: " ++ p.policy_name ++
     "\n\nELIGIBILITY:\n- Age: " ++ toString e.min_age_years ++ "–" ++
     toString e.max_age_years ++ " years\n- BMI: " ++ e.bmi_min ++ "–" ++ e.bmi_max ++
     "\n\nWAITING PERIODS:\n- Initial waiting: " ++ toString w.initial_waiting_days ++
     " days (no claims)\n- Pre-existing diseases (PED): " ++
     toString w.pre_existing_disease_years ++ " years\n- Maternity: " ++
     toString w.maternity_months ++ " months\n- Specific illnesses: " ++ illness_list ++
     "\n\nSUB-LIMITS (INR):\n- Room rent: ₹" ++ commafy (subLimit "room_rent_per_day_inr") ++
     "/day\n- ICU: ₹" ++ commafy (subLimit "icu_rent_per_day_inr") ++
     "/day\n- Ambulance: ₹" ++ commafy (subLimit "ambulance_per_event_inr") ++
     "/event\n- Cataract: ₹" ++ commafy (subLimit "cataract_per_eye_inr") ++
     "/eye\n- Mental health: ₹" ++ commafy (subLimit "mental_health_inr") ++
     "\n- AYUSH: ₹" ++ commafy (subLimit "ayush_treatment_inr") ++
     "\n- Dental: EXCLUDED\n- Cosmetic: EXCLUDED\n\nCO-PAY:\n- Standard: " ++
     toString c.default_copay_percent ++ "%\n- Senior citizen (>60): " ++
     toString c.senior_citizen_copay_percent ++ "%\n- Non-network hospital: " ++
     toString c.non_network_hospital_copay_percent ++ "%\n- PED claims: " ++
     toString c.pre_existing_copay_percent ++
     "%\n\nPRE-EXISTING CONDITIONS (PED) — covered after 2 years:\n" ++
     String.intercalate ", " p.pre_existing_conditions.common_peds ++
     "\n\nEXCLUSIONS:\n" ++
     String.intercalate "\n" (p.exclusions.map (fun x => "- " ++ x)) ++
     "\n\nSUM INSURED OPTIONS: " ++
     String.intercalate ", " (p.sum_insured_options_inr.map (fun x => "₹" ++ commafy x)) ++
     "\nDEFAULT SUM INSURED: ₹" ++ commafy p.default_sum_insured_inr ++ "\n")

/- ----------------------------------------------------------------------------
Prompt assembly, src/processors/claim_auditor.py.

FEW_SHOT_EXAMPLES (lines 38-127) is textwrap.dedent applied to a literal whose
non-blank lines already include column-zero lines, so dedent leaves it
unchanged (it has no space-only lines either); its value is assembled here
from the opening tag, the example block FS_MID (source lines 41-124
verbatim), and the closing tag, which keeps later line-structure reasoning
out of one very long literal.  Curly braces of the source text are written
with hexadecimal escapes.
---------------------------------------------------------------------------- -/

def FS_MID : String :=
  "  <example id=\"1\">\n    <scenario>Room rent sub-limit violation</scenario>\n    <bill_snippet>Room Charges: ICU stay – 5 days × ₹8,000/day = ₹40,000</bill_snippet>\n    <policy_snippet>ICU room rent capped at ₹10,000/day</policy_snippet>\n    <expected_row>\n      \x7b\n        \"parameter\": \"ICU Room Rent\",\n        \"bill_detail\": \"₹8,000/day × 5 days = ₹40,000\",\n        \"policy_clause\": \"ICU sub-limit: ₹10,000/day\",\n        \"status\": \"✅\",\n        \"lag_reason\": \"Daily ICU rate is within the ₹10,000/day sub-limit. Fully admissible.\",\n        \"risk_score\": 5,\n        \"risk_label\": \"Low\"\n      \x7d\n    </expected_row>\n  </example>\n\n  <example id=\"2\">\n    <scenario>Waiting period not satisfied – knee replacement</scenario>\n    <bill_snippet>Knee Replacement Surgery – Date: 14-Mar-2024. Policy Inception: 01-Feb-2024</bill_snippet>\n    <policy_snippet>Joint replacement: 24-month waiting period</policy_snippet>\n    <expected_row>\n      \x7b\n        \"parameter\": \"Knee Replacement Surgery\",\n        \"bill_detail\": \"Procedure on 14-Mar-2024 (policy age ≈ 1.5 months)\",\n        \"policy_clause\": \"Waiting Period – Joint replacement: 24 months\",\n        \"status\": \"❌\",\n        \"lag_reason\": \"Waiting period not met. Remaining: ≈22.5 months. Claim not admissible.\",\n        \"risk_score\": 95,\n        \"risk_label\": \"Critical\"\n      \x7d\n    </expected_row>\n  </example>\n\n  <example id=\"3\">\n    <scenario>Pre-existing diabetes complication</scenario>\n    <bill_snippet>Diabetic Nephropathy treatment – ₹80,000</bill_snippet>\n    <policy_snippet>PED covered after 2-year waiting period</policy_snippet>\n    <expected_row>\n      \x7b\n        \"parameter\": \"Diabetic Nephropathy\",\n        \"bill_detail\": \"₹80,000 – complication of pre-existing diabetes\",\n        \"policy_clause\": \"Pre-Existing Disease (PED) – 2-year waiting period\",\n        \"status\": \"⚠️\",\n        \"lag_reason\": \"Diabetes is a known PED. Covered only if policy is >2 years old. 10% co-pay applies.\",\n        \"risk_score\": 60,\n        \"risk_label\": \"Medium\"\n      \x7d\n    </expected_row>\n  </example>\n\n  <example id=\"4\">\n    <scenario>Excluded treatment – cosmetic</scenario>\n    <bill_snippet>Rhinoplasty (nose reshaping) – ₹1,20,000</bill_snippet>\n    <policy_snippet>Cosmetic surgery explicitly excluded</policy_snippet>\n    <expected_row>\n      \x7b\n        \"parameter\": \"Rhinoplasty\",\n        \"bill_detail\": \"₹1,20,000 – elective cosmetic procedure\",\n        \"policy_clause\": \"Exclusion – Cosmetic/aesthetic treatments\",\n        \"status\": \"❌\",\n        \"lag_reason\": \"Elective cosmetic surgery is a hard exclusion. Claim fully rejected.\",\n        \"risk_score\": 100,\n        \"risk_label\": \"Critical\"\n      \x7d\n    </expected_row>\n  </example>\n\n  <example id=\"5\">\n    <scenario>Co-pay – senior citizen non-network hospital</scenario>\n    <bill_snippet>Patient age 63. Total bill ₹2,00,000. Non-network hospital.</bill_snippet>\n    <policy_snippet>Senior citizen co-pay 20%; Non-network co-pay 20% (max combined 30%)</policy_snippet>\n    <expected_row>\n      \x7b\n        \"parameter\": \"Senior + Non-network Co-pay\",\n        \"bill_detail\": \"₹2,00,000 – age 63, non-network hospital\",\n        \"policy_clause\": \"Co-pay – Senior citizen 20% + Non-network 20% (capped at 30%)\",\n        \"status\": \"⚠️\",\n        \"lag_reason\": \"Combined co-pay capped at 30%. Patient liability: ₹60,000. Admissible: ₹1,40,000.\",\n        \"risk_score\": 40,\n        \"risk_label\": \"Medium\"\n      \x7d\n    </expected_row>\n  </example>"

def SYSTEM_PROMPT_RAW : String :=
  "\nYou are MediAudit, a senior insurance underwriting and claim validation expert\nwith 20+ years of experience across Indian health insurance policies.\n\nYou will receive:\n  1. <policy_baseline>  – A generalised insurance policy with standard rules.\n  2. <uploaded_policy>  – An insurer-specific policy (may be empty; use baseline if so).\n  3. <bill>             – Extracted medical bill text.\n  4. <examples>         – Few-shot labelled examples showing exact output format.\n\nYour tasks:\n  A. For EACH line item in the bill, produce one JSON row with these exact keys:\n       \"parameter\"    – treatment / charge name\n       \"bill_detail\"  – amount + description from bill\n       \"policy_clause\"– matching policy rule (baseline or uploaded)\n       \"status\"       – exactly one of: ✅  ⚠️  ❌\n       \"lag_reason\"   – 1–2 sentence explanation; quantify monetary gaps\n       \"risk_score\"   – integer 0–100 (0=no risk, 100=critical rejection)\n       \"risk_label\"   – one of: \"Low\" | \"Medium\" | \"High\" | \"Critical\"\n\n  B. After the rows, produce an \"eligibility\" object:\n       \"verdict\"      – one of: \"Eligible\" | \"Partially Eligible\" | \"Not Eligible\"\n       \"summary\"      – 2–3 sentence plain-English explanation for the patient\n       \"next_steps\"   – list of 3–5 concrete action strings the patient should take\n\n  C. Risk scoring guide:\n       0–20   → Low      (no issue or minor informational flag)\n       21–50  → Medium   (partial coverage, co-pay, sub-limit breach)\n       51–80  → High     (waiting period issue, PED concern)\n       81–100 → Critical (hard exclusion, fraud risk, full rejection)\n\n  D. Blend the uploaded policy with the baseline:\n       - If uploaded policy has a stricter rule → use uploaded\n       - If baseline has a stricter rule and uploaded is silent → use baseline\n       - Use LLM reasoning for anything neither document covers explicitly\n\nOutput ONLY a valid JSON object with two keys: \"rows\" and \"eligibility\".\nNo markdown fences. No commentary outside the JSON.\n"

def FEW_SHOT_EXAMPLES : String :=
  "\n<examples>\n\n" ++ FS_MID ++ "\n\n</examples>\n"

/-- SYSTEM_PROMPT of lines 133-171: dedent of the raw literal, then strip. -/
def SYSTEM_PROMPT : String :=
  pyStripStr ⟨dedentL SYSTEM_PROMPT_RAW.data⟩

/-- The fallback phrase of line 190. -/
def FB_PHRASE : String :=
  "No insurer-specific policy uploaded. Use baseline only."

/-- Python truthiness of uploaded_policy_text.strip(): blank means the
stripped text is empty. -/
def isBlank (s : String) : Bool :=
  s.data.all isPyWs

/-- The conditional expression of line 190 selecting the uploaded text or the
fallback phrase. -/
def pyUploadedL (u : String) : List Char :=
  if isBlank u then FB_PHRASE.data else u.data

/-- The formatted f-string of _build_user_message (lines 182-198) before
dedent and strip, with the uploaded-policy conditional already applied.  The
literal chunks are exactly the pieces of the source f-string between the
interpolation slots. -/
def pyFStringL (bill pol upl : List Char) : List Char :=
  "\n    ".data ++ FEW_SHOT_EXAMPLES.data ++
  "\n\n    <policy_baseline>\n    ".data ++ pol ++
  "\n    </policy_baseline>\n\n    <uploaded_policy>\n    ".data ++ upl ++
  "\n    </uploaded_policy>\n\n    <bill>\n    ".data ++ bill ++
  "\n    </bill>\n\n    Now perform the full audit and return the JSON object.\n    ".data

/-- _build_user_message of lines 177-198: format, textwrap.dedent, strip. -/
def build_user_message (bill_text policy_baseline_text uploaded_policy_text : String) : String :=
  ⟨pyStripL (dedentL (pyFStringL bill_text.data policy_baseline_text.data
    (pyUploadedL uploaded_policy_text)))⟩

/- ----------------------------------------------------------------------------
audit_claim, src/processors/claim_auditor.py lines 204-277.

The Groq client is modelled by an optional value holding a deterministic
response oracle (model name, system message, user message to response
content); the module state _client set by configure_groq corresponds to the
Option argument.  The second component of the result counts outbound network
calls made by the invocation.  The sampling temperature, a float forwarded
opaquely to the service, is omitted from the embedding.
---------------------------------------------------------------------------- -/

structure GroqClient where
  respond : String → String → String → String

/-- audit_claim: the unconfigured guard (lines 234-237), prompt assembly
(lines 239-241), the single network call (lines 245-255), normalization
(lines 255-270), the logging-argument evaluation (lines 272-276), and the
return (line 277). -/
def audit_claim (client : Option GroqClient) (bill_text policy_baseline_text : String)
    (uploaded_policy_text : String := "") (model_name : String := "llama-3.3-70b-versatile") :
    Except AuditError Json × Nat :=
  match client with
  | none => (.error .unconfigured, 0)
  | some cl =>
    let user_message := build_user_message bill_text policy_baseline_text uploaded_policy_text
    let raw := cl.respond model_name SYSTEM_PROMPT user_message
    let result :=
      match normalizeResponse raw with
      | .error e => .error e
      | .ok parsed =>
        match logAuditComplete parsed with
        | .error e => .error e
        | .ok _ => .ok parsed
    (result, 1)

/- ----------------------------------------------------------------------------
Small auxiliary predicates used in theorem statements.
---------------------------------------------------------------------------- -/

/-- Four spaces, the indentation of the literal lines of the user-message
f-string. -/
def SP4 : List Char := [' ', ' ', ' ', ' ']

/-- Is the text free of leading and trailing whitespace? -/
def trimmedB (l : List Char) : Bool :=
  (match l with
   | [] => true
   | c :: _ => !isPyWs c) &&
  (match l.getLast? with
   | none => true
   | some c => !isPyWs c)

/-- A legal fence language tag: absent, or the four letters json in any
letter case. -/
def isFenceTagB (tag : String) : Bool :=
  tag == "" || (jsonTagCI tag.data && tag.data.length == 4)

/-- The segment delimiter lines of the user-message template, as character
lists. -/
def EX_OPEN : List Char := "<examples>".data

def EX_CLOSE : List Char := "</examples>".data

def PB_OPEN : List Char := "    <policy_baseline>".data

def PB_CLOSE : List Char := "    </policy_baseline>".data

def UP_OPEN : List Char := "    <uploaded_policy>".data

def UP_CLOSE : List Char := "    </uploaded_policy>".data

def BI_OPEN : List Char := "    <bill>".data

def BI_CLOSE : List Char := "    </bill>".data

def NOW_LINE : List Char := "    Now perform the full audit and return the JSON object.".data

/-- Closed form of the assembled user message (proved equal to
build_user_message below): the four tagged segments in order, with dedent
reduced to blank-line clearing (clearBlank) on the few-shot block and on each
interpolated, four-space-indented segment. -/
def MSG_CORE (bill pol upl : List Char) : List Char :=
  EX_OPEN ++ '\n' :: '\n' :: clearBlank FS_MID.data ++ '\n' :: '\n' ::
  EX_CLOSE ++ '\n' :: '\n' :: '\n' :: PB_OPEN ++ '\n' ::
  clearBlank (SP4 ++ pol) ++ '\n' :: PB_CLOSE ++ '\n' :: '\n' ::
  UP_OPEN ++ '\n' :: clearBlank (SP4 ++ upl) ++ '\n' ::
  UP_CLOSE ++ '\n' :: '\n' :: BI_OPEN ++ '\n' ::
  clearBlank (SP4 ++ bill) ++ '\n' :: BI_CLOSE ++ '\n' :: '\n' ::
  NOW_LINE


set_option maxRecDepth 8000
set_option maxHeartbeats 1000000

/- ----------------------------------------------------------------------------
Helper lemmas: line splitting and joining.
---------------------------------------------------------------------------- -/

theorem splitLines_ne_nil (l : List Char) : splitLines l ≠ [] := by
  cases l with
  | nil => simp [splitLines]
  | cons c rest =>
    simp only [splitLines]
    split
    · simp
    · cases h : splitLines rest <;> simp

theorem splitLines_append (x y : List Char) :
    splitLines (x ++ '\n' :: y) = splitLines x ++ splitLines y := by
  induction x with
  | nil => simp [splitLines]
  | cons c x ih =>
    by_cases hc : c = '\n'
    · subst hc
      simp [splitLines, ih]
    · obtain ⟨l₀, ls₀, h₀⟩ : ∃ l₀ ls₀, splitLines x = l₀ :: ls₀ := by
        cases h : splitLines x with
        | nil => exact absurd h (splitLines_ne_nil x)
        | cons a b => exact ⟨a, b, rfl⟩
      simp only [List.cons_append, splitLines, if_neg hc, List.append_eq]
      rw [ih, h₀]
      simp

theorem joinLines_cons (a : List Char) (A : List (List Char)) (hA : A ≠ []) :
    joinLines (a :: A) = a ++ '\n' :: joinLines A := by
  cases A with
  | nil => exact absurd rfl hA
  | cons b B => rfl

theorem joinLines_append (A B : List (List Char)) (hA : A ≠ []) (hB : B ≠ []) :
    joinLines (A ++ B) = joinLines A ++ '\n' :: joinLines B := by
  induction A with
  | nil => exact absurd rfl hA
  | cons a A ih =>
    cases A with
    | nil =>
      rw [List.singleton_append, joinLines_cons a B hB]
      rfl
    | cons a' A' =>
      rw [List.cons_append, joinLines_cons a ((a' :: A') ++ B) (by simp),
        ih (by simp), joinLines_cons a (a' :: A') (by simp)]
      simp

theorem splitLines_no_nl (l : List Char) (h : '\n' ∉ l) : splitLines l = [l] := by
  induction l with
  | nil => rfl
  | cons c rest ih =>
    have hc : ¬ c = '\n' := fun hc => h (hc ▸ List.mem_cons_self c rest)
    have hr : '\n' ∉ rest := fun hr => h (List.mem_cons_of_mem c hr)
    simp only [splitLines, if_neg hc, ih hr]

theorem clearBlank_join (cs : List (List Char)) (h : cs ≠ []) :
    clearBlank (joinLines cs) = joinLines (cs.map clearBlank) := by
  induction cs with
  | nil => exact absurd rfl h
  | cons c cs ih =>
    cases cs with
    | nil => simp [joinLines]
    | cons c' cs' =>
      have hih := ih (by simp)
      rw [joinLines_cons c (c' :: cs') (by simp), List.map_cons,
        joinLines_cons (clearBlank c) ((c' :: cs').map clearBlank) (by simp)]
      unfold clearBlank
      rw [splitLines_append, List.map_append,
        joinLines_append _ _
          (by
            intro hx
            exact splitLines_ne_nil c (List.map_eq_nil_iff.mp hx))
          (by
            intro hx
            exact splitLines_ne_nil (joinLines (c' :: cs')) (List.map_eq_nil_iff.mp hx))]
      rw [show joinLines ((splitLines (joinLines (c' :: cs'))).map clearLine)
          = clearBlank (joinLines (c' :: cs')) from rfl, hih]
      rfl

theorem clearBlank_line (l : List Char) (h : '\n' ∉ l) : clearBlank l = clearLine l := by
  unfold clearBlank
  rw [splitLines_no_nl l h]
  rfl

/- ----------------------------------------------------------------------------
Helper lemmas: the dedent margin is empty whenever some contentful line has no
indentation, and dedent then reduces to blank-line clearing.
---------------------------------------------------------------------------- -/

theorem commonPre_nil_left (b : List Char) : commonPre [] b = [] := by
  cases b <;> rfl

theorem commonPre_nil_right (a : List Char) : commonPre a [] = [] := by
  cases a <;> rfl

theorem foldl_commonPre_nil (is : List (List Char)) :
    ∀ acc, acc = [] ∨ [] ∈ is → is.foldl commonPre acc = [] := by
  induction is with
  | nil =>
    intro acc h
    rcases h with h | h
    · simpa using h
    · simp at h
  | cons b bs ih =>
    intro acc h
    rw [List.foldl_cons]
    rcases h with h | h
    · subst h
      exact ih _ (Or.inl (commonPre_nil_left b))
    · rcases List.mem_cons.mp h with h | h
      · subst h
        exact ih _ (Or.inl (commonPre_nil_right acc))
      · exact ih _ (Or.inr h)

theorem margin_eq_nil {lines : List (List Char)} {l : List Char}
    (hmem : l ∈ lines) (hst : hasStuff l = true) (hind : lineIndent l = []) :
    margin lines = [] := by
  have hmem2 : ([] : List Char) ∈ (lines.filter hasStuff).map lineIndent := by
    rw [← hind]
    exact List.mem_map_of_mem _ (List.mem_filter.mpr ⟨hmem, hst⟩)
  unfold margin
  cases h : (lines.filter hasStuff).map lineIndent with
  | nil => rfl
  | cons i is =>
    rw [h] at hmem2
    rcases List.mem_cons.mp hmem2 with h2 | h2
    · exact foldl_commonPre_nil is i (Or.inl h2.symm)
    · exact foldl_commonPre_nil is i (Or.inr h2)

theorem dedentL_eq_clearBlank {t : List Char}
    (h : margin ((splitLines t).map clearLine) = []) : dedentL t = clearBlank t := by
  simp [dedentL, clearBlank, h]

/- ----------------------------------------------------------------------------
Helper lemmas: dropWhile and two-sided stripping.
---------------------------------------------------------------------------- -/

theorem dropWhile_all_append {p : Char → Bool} {w : List Char} (r : List Char)
    (h : ∀ c ∈ w, p c = true) : (w ++ r).dropWhile p = r.dropWhile p := by
  induction w with
  | nil => rfl
  | cons c w ih =>
    rw [List.cons_append, List.dropWhile_cons,
      if_pos (h c (List.mem_cons_self c w))]
    exact ih (fun d hd => h d (List.mem_cons_of_mem c hd))

theorem dropWhile_cons_neg {p : Char → Bool} {c : Char} (l : List Char)
    (h : p c = false) : (c :: l).dropWhile p = c :: l := by
  rw [List.dropWhile_cons, if_neg (by simp [h])]

theorem rstrip_concat {p : Char → Bool} {x w : List Char} {c : Char}
    (hc : p c = false) (hw : ∀ d ∈ w, p d = true) :
    ((x ++ c :: w).reverse.dropWhile p).reverse = x ++ [c] := by
  rw [List.reverse_append, List.reverse_cons, List.append_assoc,
    dropWhile_all_append _ (fun d hd => hw d (List.mem_reverse.mp hd)),
    List.singleton_append, dropWhile_cons_neg _ hc]
  simp

/- ----------------------------------------------------------------------------
Helper lemmas: the assembled user message in closed form.
---------------------------------------------------------------------------- -/

theorem data_nl_sp4 : ("\n    " : String).data = '\n' :: SP4 := rfl

theorem data_fs_open : ("\n<examples>\n\n" : String).data =
    '\n' :: (EX_OPEN ++ '\n' :: '\n' :: ([] : List Char)) := rfl

theorem data_fs_close : ("\n\n</examples>\n" : String).data =
    '\n' :: '\n' :: (EX_CLOSE ++ ['\n']) := rfl

theorem data_pb_open : ("\n\n    <policy_baseline>\n    " : String).data =
    '\n' :: '\n' :: (PB_OPEN ++ '\n' :: SP4) := rfl

theorem data_pb_close : ("\n    </policy_baseline>\n\n    <uploaded_policy>\n    " : String).data =
    '\n' :: (PB_CLOSE ++ '\n' :: '\n' :: (UP_OPEN ++ '\n' :: SP4)) := rfl

theorem data_up_close : ("\n    </uploaded_policy>\n\n    <bill>\n    " : String).data =
    '\n' :: (UP_CLOSE ++ '\n' :: '\n' :: (BI_OPEN ++ '\n' :: SP4)) := rfl

theorem data_bi_close : ("\n    </bill>\n\n    Now perform the full audit and return the JSON object.\n    " : String).data =
    '\n' :: (BI_CLOSE ++ '\n' :: '\n' :: (NOW_LINE ++ '\n' :: SP4)) := rfl

/-- The f-string value as newline-joined chunks, one entry per source line of
the template (interpolated text, which may span lines, rides inside its
chunk). -/
theorem pyFStringL_eq_joinLines (bill pol upl : List Char) :
    pyFStringL bill pol upl = joinLines
      [[], SP4, EX_OPEN, [], FS_MID.data, [], EX_CLOSE, [], [],
       PB_OPEN, SP4 ++ pol, PB_CLOSE, [],
       UP_OPEN, SP4 ++ upl, UP_CLOSE, [],
       BI_OPEN, SP4 ++ bill, BI_CLOSE, [],
       NOW_LINE, SP4] := by
  simp only [pyFStringL, FEW_SHOT_EXAMPLES, String.data_append, data_nl_sp4,
    data_fs_open, data_fs_close, data_pb_open, data_pb_close, data_up_close,
    data_bi_close, joinLines]
  simp [SP4, EX_OPEN, EX_CLOSE, PB_OPEN, PB_CLOSE, UP_OPEN, UP_CLOSE, BI_OPEN,
    BI_CLOSE, NOW_LINE, List.append_assoc]

/-- The f-string always contains the column-zero line of the examples opening
tag, so the dedent margin is empty whatever the interpolated texts are. -/
theorem margin_formatted (bill pol upl : List Char) :
    margin ((splitLines (pyFStringL bill pol upl)).map clearLine) = [] := by
  apply margin_eq_nil (l := EX_OPEN) _ (by decide) (by decide)
  rw [pyFStringL_eq_joinLines]
  have e : joinLines
      [[], SP4, EX_OPEN, [], FS_MID.data, [], EX_CLOSE, [], [],
       PB_OPEN, SP4 ++ pol, PB_CLOSE, [],
       UP_OPEN, SP4 ++ upl, UP_CLOSE, [],
       BI_OPEN, SP4 ++ bill, BI_CLOSE, [],
       NOW_LINE, SP4] =
      ([] : List Char) ++ '\n' :: (SP4 ++ '\n' :: (EX_OPEN ++ '\n' :: joinLines
        [[], FS_MID.data, [], EX_CLOSE, [], [],
         PB_OPEN, SP4 ++ pol, PB_CLOSE, [],
         UP_OPEN, SP4 ++ upl, UP_CLOSE, [],
         BI_OPEN, SP4 ++ bill, BI_CLOSE, [],
         NOW_LINE, SP4])) := rfl
  rw [e, splitLines_append, splitLines_append, splitLines_append,
    splitLines_no_nl EX_OPEN (by decide)]
  have hm : EX_OPEN ∈
      splitLines [] ++ (splitLines SP4 ++ ([EX_OPEN] ++ splitLines (joinLines
        [[], FS_MID.data, [], EX_CLOSE, [], [],
         PB_OPEN, SP4 ++ pol, PB_CLOSE, [],
         UP_OPEN, SP4 ++ upl, UP_CLOSE, [],
         BI_OPEN, SP4 ++ bill, BI_CLOSE, [],
         NOW_LINE, SP4]))) := by
    simp
  have := List.mem_map_of_mem clearLine hm
  rwa [show clearLine EX_OPEN = EX_OPEN from rfl] at this

theorem cb_nil : clearBlank [] = [] := rfl

theorem cb_sp4 : clearBlank SP4 = [] := rfl

theorem cb_ex_open : clearBlank EX_OPEN = EX_OPEN := rfl

theorem cb_ex_close : clearBlank EX_CLOSE = EX_CLOSE := rfl

theorem cb_pb_open : clearBlank PB_OPEN = PB_OPEN := rfl

theorem cb_pb_close : clearBlank PB_CLOSE = PB_CLOSE := rfl

theorem cb_up_open : clearBlank UP_OPEN = UP_OPEN := rfl

theorem cb_up_close : clearBlank UP_CLOSE = UP_CLOSE := rfl

theorem cb_bi_open : clearBlank BI_OPEN = BI_OPEN := rfl

theorem cb_bi_close : clearBlank BI_CLOSE = BI_CLOSE := rfl

theorem cb_now : clearBlank NOW_LINE = NOW_LINE := rfl

/-- Blank-line clearing of the chunked f-string, joined: the indentation-only
lines are emptied and everything collapses to the closed form MSG_CORE framed
by the outer blank lines. -/
theorem mapped_joined_eq (bill pol upl : List Char) :
    joinLines (List.map clearBlank
      [[], SP4, EX_OPEN, [], FS_MID.data, [], EX_CLOSE, [], [],
       PB_OPEN, SP4 ++ pol, PB_CLOSE, [],
       UP_OPEN, SP4 ++ upl, UP_CLOSE, [],
       BI_OPEN, SP4 ++ bill, BI_CLOSE, [],
       NOW_LINE, SP4]) =
    '\n' :: '\n' :: (MSG_CORE bill pol upl ++ ['\n']) := by
  simp only [List.map, cb_nil, cb_sp4, cb_ex_open, cb_ex_close, cb_pb_open,
    cb_pb_close, cb_up_open, cb_up_close, cb_bi_open, cb_bi_close, cb_now,
    joinLines]
  simp [MSG_CORE, SP4, EX_OPEN, EX_CLOSE, PB_OPEN, PB_CLOSE, UP_OPEN, UP_CLOSE,
    BI_OPEN, BI_CLOSE, NOW_LINE, List.append_assoc]

theorem pyStrip_peel_head {c : Char} (l : List Char) (h : isPyWs c = true) :
    pyStripL (c :: l) = pyStripL l := by
  unfold pyStripL
  rw [List.dropWhile_cons, if_pos h]

theorem pyStrip_peel_tail {c : Char} (l : List Char) (h : isPyWs c = true) :
    pyStripL (l ++ [c]) = pyStripL l := by
  unfold pyStripL
  rw [List.dropWhile_append]
  by_cases hl : (l.dropWhile isPyWs).isEmpty
  · rw [if_pos hl]
    have h1 : List.dropWhile isPyWs [c] = [] := by
      rw [List.dropWhile_cons, if_pos h]
      rfl
    have h2 : l.dropWhile isPyWs = [] := by
      simpa [List.isEmpty_iff] using hl
    rw [h1, h2]
  · rw [if_neg hl, List.reverse_append]
    simp only [List.reverse_cons, List.reverse_nil, List.nil_append,
      List.singleton_append]
    rw [List.dropWhile_cons, if_pos h]

theorem pyStripL_id (l : List Char)
    (h1 : ∀ c, l.head? = some c → isPyWs c = false)
    (h2 : ∀ c, l.getLast? = some c → isPyWs c = false) : pyStripL l = l := by
  cases l with
  | nil => rfl
  | cons a t =>
    unfold pyStripL
    rw [dropWhile_cons_neg _ (h1 a rfl)]
    have hne : (a :: t) ≠ [] := by simp
    have hlast : isPyWs ((a :: t).getLast hne) = false :=
      h2 _ (List.getLast?_eq_getLast (a :: t) hne)
    have hdecomp : a :: t = (a :: t).dropLast ++ [(a :: t).getLast hne] :=
      (List.dropLast_append_getLast hne).symm
    rw [hdecomp, List.reverse_append]
    simp only [List.reverse_cons, List.reverse_nil, List.nil_append,
      List.singleton_append]
    rw [List.dropWhile_cons, if_neg (by simp [hlast])]
    rw [List.reverse_cons, List.reverse_reverse]

theorem now_line_rev : NOW_LINE.reverse =
    '.' :: "tcejbo NOSJ eht nruter dna tidua lluf eht mrofrep woN    ".data := by decide

theorem msg_head (bill pol upl : List Char) :
    (MSG_CORE bill pol upl).head? = some '<' := rfl

theorem msg_last (bill pol upl : List Char) :
    (MSG_CORE bill pol upl).getLast? = some '.' := by
  rw [← List.head?_reverse]
  simp [MSG_CORE, List.reverse_append, now_line_rev]

/-- Master closed form: _build_user_message equals MSG_CORE. -/
theorem assembled_eq (bill pol upl : List Char) :
    pyStripL (dedentL (pyFStringL bill pol upl)) = MSG_CORE bill pol upl := by
  rw [dedentL_eq_clearBlank (margin_formatted bill pol upl), pyFStringL_eq_joinLines,
    clearBlank_join _ (by simp), mapped_joined_eq,
    pyStrip_peel_head _ (by decide), pyStrip_peel_head _ (by decide),
    pyStrip_peel_tail _ (by decide)]
  exact pyStripL_id _
    (fun c hc => by
      rw [msg_head] at hc
      cases hc
      decide)
    (fun c hc => by
      rw [msg_last] at hc
      cases hc
      decide)

/-- String-level master form of build_user_message. -/
theorem build_user_message_eq (bill pol upl : String) :
    (build_user_message bill pol upl).data =
      MSG_CORE bill.data pol.data (pyUploadedL upl) := by
  have h : build_user_message bill pol upl =
      ⟨MSG_CORE bill.data pol.data (pyUploadedL upl)⟩ := by
    unfold build_user_message
    rw [assembled_eq]
  rw [h]

/- ----------------------------------------------------------------------------
Helper lemmas: dictionary lookups and the repair branch.
---------------------------------------------------------------------------- -/

theorem normalizeParsed_obj (fields : List (String × Json)) :
    normalizeParsed (.obj fields) =
      if hasKeyB fields "rows" then .ok (.obj fields)
      else .ok (.obj
        [("rows", ((fields.find? (fun kv => isArrJ kv.2)).map (fun kv => kv.2)).getD (.arr [])),
         ("eligibility", (objFind fields "eligibility").getD FALLBACK_ELIGIBILITY)]) := by
  unfold normalizeParsed pyRowsNotIn
  cases h : hasKeyB fields "rows" <;> simp [h]

theorem objFind_hasKey {fields : List (String × Json)} {k : String} {v : Json}
    (h : objFind fields k = some v) : hasKeyB fields k = true := by
  unfold objFind at h
  cases hf : fields.find? (fun kv => kv.1 == k) with
  | none => rw [hf] at h; cases h
  | some kv =>
    have hp := List.find?_some hf
    have hm := List.mem_of_find?_eq_some hf
    exact List.any_eq_true.mpr ⟨kv, hm, hp⟩

theorem hasKey_false_objFind_none {fields : List (String × Json)} {k : String}
    (h : hasKeyB fields k = false) : objFind fields k = none := by
  unfold objFind
  rw [List.find?_eq_none.mpr]
  · rfl
  · intro kv hkv hp
    have hany : fields.any (fun kv => kv.1 == k) = true :=
      List.any_eq_true.mpr ⟨kv, hkv, hp⟩
    rw [show fields.any (fun kv => kv.1 == k) = hasKeyB fields k from rfl, h] at hany
    cases hany

theorem find_unique {α : Type} {p : α → Bool} {l : List α} {a : α}
    (hcount : l.countP p = 1) (hmem : a ∈ l) (hp : p a = true) :
    l.find? p = some a := by
  induction l with
  | nil => cases hmem
  | cons b bs ih =>
    by_cases hb : p b = true
    · rw [List.find?_cons_of_pos _ hb]
      rw [List.countP_cons] at hcount
      simp only [hb, if_true] at hcount
      have hzero : bs.countP p = 0 := by omega
      have hnone : ∀ x ∈ bs, ¬ p x = true := List.countP_eq_zero.mp hzero
      rcases List.mem_cons.mp hmem with h | h
      · rw [h]
      · exact absurd hp (hnone a h)
    · rw [List.find?_cons_of_neg _ hb]
      have hcount' : bs.countP p = 1 := by
        rw [List.countP_cons] at hcount
        simp only [hb, if_false, Bool.false_eq_true] at hcount
        omega
      rcases List.mem_cons.mp hmem with h | h
      · exact absurd (h ▸ hp) hb
      · exact ih hcount' h

theorem find_arr_none {fields : List (String × Json)}
    (h : fields.countP (fun kv => isArrJ kv.2) = 0) :
    fields.find? (fun kv => isArrJ kv.2) = none :=
  List.find?_eq_none.mpr (List.countP_eq_zero.mp h)

/- ----------------------------------------------------------------------------
Claims about the Response Normalizer.
---------------------------------------------------------------------------- -/

/-- C1 (counterexample).  The claim asserts that for every parseable raw
response the normalizer's result contains exactly one eligibility object,
including when the parsed object has a rows key but no eligibility key.  The
raw text consisting of an object with only a rows key parses, yet the result
is returned unchanged and carries no eligibility field at all. -/
theorem c1_counterexample :
    parseStage "\x7b\"rows\": []\x7d" = some (.obj [("rows", .arr [])]) ∧
    normalizeResponse "\x7b\"rows\": []\x7d" = .ok (.obj [("rows", .arr [])]) ∧
    hasKeyB [("rows", Json.arr [])] "eligibility" = false :=
  ⟨rfl, rfl, rfl⟩

/-- C1 (amended).  For every raw response whose fence-stripped content parses
as a JSON object: when the object lacks a rows key the result satisfies the
AuditResult shape invariants (a rows field holding a sequence, and exactly one
eligibility entry); when the object has a rows key the result is the parsed
object unchanged, so the invariants hold only if that object already
satisfied them. -/
theorem c1_rows_eligibility_shape_amended (s : String) (fields : List (String × Json))
    (hp : parseStage s = some (.obj fields)) :
    (hasKeyB fields "rows" = false →
      ∃ r e, normalizeResponse s = .ok (.obj [("rows", .arr r), ("eligibility", e)])) ∧
    (hasKeyB fields "rows" = true → normalizeResponse s = .ok (.obj fields)) := by
  have hn : normalizeResponse s = normalizeParsed (.obj fields) := by
    unfold normalizeResponse
    rw [hp]
  rw [hn, normalizeParsed_obj]
  constructor
  · intro h
    rw [if_neg (by simp [h])]
    cases hf : fields.find? (fun kv => isArrJ kv.2) with
    | none =>
      exact ⟨[], (objFind fields "eligibility").getD FALLBACK_ELIGIBILITY, rfl⟩
    | some kv =>
      have hp2 := List.find?_some hf
      cases hkv : kv.2 with
      | arr a =>
        exact ⟨a, (objFind fields "eligibility").getD FALLBACK_ELIGIBILITY,
          by simp [hkv]⟩
      | null => rw [hkv] at hp2; cases hp2
      | bool b => rw [hkv] at hp2; cases hp2
      | num n => rw [hkv] at hp2; cases hp2
      | str t => rw [hkv] at hp2; cases hp2
      | obj o => rw [hkv] at hp2; cases hp2
  · intro h
    rw [if_pos (by simp [h])]

/-- C1 (witness). -/
theorem c1_amended_witness :
    ∃ r e, normalizeResponse "\x7b\"a\": [1]\x7d" =
      .ok (.obj [("rows", .arr r), ("eligibility", e)]) :=
  (c1_rows_eligibility_shape_amended "\x7b\"a\": [1]\x7d"
    [("a", Json.arr [Json.num "1"])] rfl).1 rfl

/-- C3 (code bug).  The claim (and the spec) say the normalization step either
returns an AuditResult or fails with MalformedResponse only, repairing
responses that parse as a top-level sequence by treating the sequence as rows.
The code instead calls parsed.values() on the list, which raises
AttributeError: on the raw text consisting of an empty JSON array the model
yields the attributeError kind, which is not malformedResponse. -/
theorem c3_top_level_sequence_crashes :
    parseStage "[]" = some (.arr []) ∧
    normalizeResponse "[]" = .error .attributeError ∧
    AuditError.attributeError ≠ AuditError.malformedResponse :=
  ⟨rfl, rfl, by decide⟩

/-- C4.  A raw response parsing as an object with both a rows key holding a
sequence and an eligibility key passes through the normalizer unchanged: the
result is exactly the parsed object, hence exactly those rows and that
eligibility value. -/
theorem c4_identity_passthrough (s : String) (fields : List (String × Json))
    (rows : List Json) (elig : Json)
    (hp : parseStage s = some (.obj fields))
    (hr : objFind fields "rows" = some (.arr rows))
    (he : objFind fields "eligibility" = some elig) :
    normalizeResponse s = .ok (.obj fields) := by
  have hn : normalizeResponse s = normalizeParsed (.obj fields) := by
    unfold normalizeResponse
    rw [hp]
  rw [hn, normalizeParsed_obj, if_pos (by simp [objFind_hasKey hr])]

/-- C4 (witness). -/
theorem c4_witness :
    normalizeResponse "\x7b\"rows\": [], \"eligibility\": \x7b\x7d\x7d" =
      .ok (.obj [("rows", .arr []), ("eligibility", .obj [])]) :=
  c4_identity_passthrough "\x7b\"rows\": [], \"eligibility\": \x7b\x7d\x7d"
    [("rows", .arr []), ("eligibility", .obj [])] [] (.obj []) rfl rfl rfl

/-- C5.  A raw response parsing as an object without a rows key but with
exactly one sequence-valued field is repaired: that sequence becomes rows, and
the eligibility field is taken from the object when present, otherwise the
fallback object with verdict Unknown, the generic summary, and the single
manual-review next step is synthesized. -/
theorem c5_single_sequence_repair (s : String) (fields : List (String × Json))
    (k : String) (v : Json)
    (hp : parseStage s = some (.obj fields))
    (hno : hasKeyB fields "rows" = false)
    (huniq : fields.countP (fun kv => isArrJ kv.2) = 1)
    (hmem : (k, v) ∈ fields) (hv : isArrJ v = true) :
    normalizeResponse s =
      .ok (.obj [("rows", v),
        ("eligibility", (objFind fields "eligibility").getD FALLBACK_ELIGIBILITY)]) ∧
    (hasKeyB fields "eligibility" = false →
      (objFind fields "eligibility").getD FALLBACK_ELIGIBILITY = FALLBACK_ELIGIBILITY) := by
  have hn : normalizeResponse s = normalizeParsed (.obj fields) := by
    unfold normalizeResponse
    rw [hp]
  constructor
  · rw [hn, normalizeParsed_obj, if_neg (by simp [hno]),
      find_unique huniq hmem hv]
    rfl
  · intro h
    rw [hasKey_false_objFind_none h]
    rfl

/-- C5 (witness). -/
theorem c5_witness :
    normalizeResponse "\x7b\"items\": [1, 2]\x7d" =
      .ok (.obj [("rows", .arr [Json.num "1", Json.num "2"]),
        ("eligibility", FALLBACK_ELIGIBILITY)]) := by
  have h := (c5_single_sequence_repair "\x7b\"items\": [1, 2]\x7d"
    [("items", .arr [Json.num "1", Json.num "2"])]
    "items" (.arr [Json.num "1", Json.num "2"]) rfl rfl rfl (by simp) rfl).1
  rw [show (objFind [("items", Json.arr [Json.num "1", Json.num "2"])] "eligibility").getD
      FALLBACK_ELIGIBILITY = FALLBACK_ELIGIBILITY from rfl] at h
  exact h

/-- C10.  A raw response parsing as an object without a rows key and with no
sequence-valued field at all yields the empty sequence as rows, together with
the object's eligibility field when present and the synthesized Unknown
fallback otherwise. -/
theorem c10_no_sequence_empty_rows (s : String) (fields : List (String × Json))
    (hp : parseStage s = some (.obj fields))
    (hno : hasKeyB fields "rows" = false)
    (hzero : fields.countP (fun kv => isArrJ kv.2) = 0) :
    normalizeResponse s =
      .ok (.obj [("rows", .arr []),
        ("eligibility", (objFind fields "eligibility").getD FALLBACK_ELIGIBILITY)]) := by
  have hn : normalizeResponse s = normalizeParsed (.obj fields) := by
    unfold normalizeResponse
    rw [hp]
  rw [hn, normalizeParsed_obj, if_neg (by simp [hno]), find_arr_none hzero]
  rfl

/-- C10 (witness). -/
theorem c10_witness :
    normalizeResponse "\x7b\"eligibility\": \x7b\"verdict\": \"Eligible\"\x7d\x7d" =
      .ok (.obj [("rows", .arr []),
        ("eligibility", .obj [("verdict", .str "Eligible")])]) := by
  have h := c10_no_sequence_empty_rows
    "\x7b\"eligibility\": \x7b\"verdict\": \"Eligible\"\x7d\x7d"
    [("eligibility", .obj [("verdict", .str "Eligible")])] rfl rfl rfl
  rw [show (objFind [("eligibility", Json.obj [("verdict", Json.str "Eligible")])]
      "eligibility").getD FALLBACK_ELIGIBILITY
      = Json.obj [("verdict", Json.str "Eligible")] from rfl] at h
  exact h

/- ----------------------------------------------------------------------------
Claim C6: code-fence stripping.
---------------------------------------------------------------------------- -/

theorem jsonTagCI_extend (a b c d : Char) (r : List Char) :
    jsonTagCI (a :: b :: c :: d :: r) = jsonTagCI [a, b, c, d] := rfl

theorem list_len4 {l : List Char} (h : l.length = 4) :
    ∃ a b c d, l = [a, b, c, d] := by
  match l, h with
  | [a, b, c, d], _ => exact ⟨a, b, c, d, rfl⟩

/-- C6.  A raw response wrapped in triple-backtick fences, with or without a
json language tag in any letter case, has the fences stripped before parsing:
for trimmed well-formed JSON text beneath the fences, the parse stage yields
exactly the parse of that text, so normalization proceeds as if the fences
had never been there. -/
theorem c6_fence_stripping (tag s : String) (v : Json)
    (htag : isFenceTagB tag = true)
    (htrim : trimmedB s.data = true)
    (hp : parseJsonL s.data = some v) :
    parseStage ("```" ++ tag ++ "\n" ++ s ++ "\n```") = some v ∧
    normalizeResponse ("```" ++ tag ++ "\n" ++ s ++ "\n```") = normalizeParsed v := by
  obtain ⟨c, t, hs⟩ : ∃ c t, s.data = c :: t := by
    cases hsd : s.data with
    | nil =>
      rw [hsd, show parseJsonL [] = none from rfl] at hp
      cases hp
    | cons a b => exact ⟨a, b, rfl⟩
  have hc : isPyWs c = false := by
    have h2 := htrim
    unfold trimmedB at h2
    rw [hs] at h2
    simp only [Bool.and_eq_true] at h2
    simpa using h2.1
  obtain ⟨d, hd⟩ : ∃ d, s.data.getLast? = some d := by
    rw [hs]
    exact ⟨_, List.getLast?_eq_getLast _ (by simp)⟩
  have hdw : isPyWs d = false := by
    have h2 := htrim
    unfold trimmedB at h2
    rw [hd] at h2
    simp only [Bool.and_eq_true] at h2
    simpa using h2.2
  obtain ⟨rt, hrev⟩ : ∃ rt, s.data.reverse = d :: rt := by
    have h1 : s.data.reverse.head? = some d := by
      rw [List.head?_reverse]
      exact hd
    cases hr : s.data.reverse with
    | nil => rw [hr] at h1; cases h1
    | cons e es =>
      rw [hr] at h1
      simp only [List.head?_cons, Option.some.injEq] at h1
      exact ⟨es, by rw [h1]⟩
  have hraw : ("```" ++ tag ++ "\n" ++ s ++ "\n```" : String).data
      = '`' :: '`' :: '`' :: (tag.data ++ '\n' :: (s.data ++ '\n' :: '`' :: '`' :: '`' :: [])) := by
    simp [String.data_append, List.append_assoc]
  have hrevraw : ("```" ++ tag ++ "\n" ++ s ++ "\n```" : String).data.reverse
      = '`' :: '`' :: '`' :: ('\n' :: (s.data.reverse ++ '\n' :: (tag.data.reverse ++ ['`', '`', '`']))) := by
    rw [hraw]
    simp [List.reverse_append, List.append_assoc]
  have hstrip : pyStripL ("```" ++ tag ++ "\n" ++ s ++ "\n```" : String).data
      = ("```" ++ tag ++ "\n" ++ s ++ "\n```" : String).data := by
    unfold pyStripL
    rw [hraw, dropWhile_cons_neg _ (by decide), ← hraw, hrevraw,
      dropWhile_cons_neg _ (by decide), ← hrevraw, List.reverse_reverse]
  have hdropnl : ('\n' :: (s.data ++ '\n' :: '`' :: '`' :: '`' :: [])).dropWhile isPyWs
      = s.data ++ '\n' :: '`' :: '`' :: '`' :: [] := by
    rw [List.dropWhile_cons, if_pos (by decide), hs, List.cons_append,
      dropWhile_cons_neg _ hc, ← List.cons_append, ← hs]
  have hlead : stripLeadFenceL ("```" ++ tag ++ "\n" ++ s ++ "\n```" : String).data
      = s.data ++ '\n' :: '`' :: '`' :: '`' :: [] := by
    rw [hraw]
    show (if jsonTagCI (tag.data ++ '\n' :: (s.data ++ '\n' :: '`' :: '`' :: '`' :: []))
          then (tag.data ++ '\n' :: (s.data ++ '\n' :: '`' :: '`' :: '`' :: [])).drop 4
          else tag.data ++ '\n' :: (s.data ++ '\n' :: '`' :: '`' :: '`' :: [])).dropWhile isPyWs
        = s.data ++ '\n' :: '`' :: '`' :: '`' :: []
    unfold isFenceTagB at htag
    have htag2 : tag = "" ∨ (jsonTagCI tag.data = true ∧ tag.data.length = 4) := by
      simpa using htag
    rcases htag2 with h0 | h0
    · have htag0 : tag.data = [] := by
        rw [h0]
      rw [htag0, List.nil_append]
      rw [if_neg (by
        rw [hs]
        simp [jsonTagCI])]
      rw [← hs] at *
      exact hdropnl
    · obtain ⟨hci, hlen⟩ := h0
      obtain ⟨a, b, c4, d4, habcd⟩ := list_len4 hlen
      rw [habcd] at hci ⊢
      rw [List.cons_append, List.cons_append, List.cons_append, List.cons_append,
        List.nil_append]
      rw [if_pos (by rw [jsonTagCI_extend]; exact hci)]
      show ('\n' :: (s.data ++ '\n' :: '`' :: '`' :: '`' :: [])).dropWhile isPyWs = _
      exact hdropnl
  have htrail : stripTrailFenceL (s.data ++ '\n' :: '`' :: '`' :: '`' :: []) = s.data := by
    unfold stripTrailFenceL
    have hr2 : (s.data ++ '\n' :: '`' :: '`' :: '`' :: []).reverse
        = '`' :: '`' :: '`' :: '\n' :: s.data.reverse := by
      simp [List.reverse_append]
    rw [hr2]
    show (('\n' :: s.data.reverse).dropWhile isPyWs).reverse = s.data
    rw [List.dropWhile_cons, if_pos (by decide), hrev, dropWhile_cons_neg _ hdw,
      ← hrev, List.reverse_reverse]
  have hstr : stripFencesL ("```" ++ tag ++ "\n" ++ s ++ "\n```" : String).data = s.data := by
    unfold stripFencesL
    rw [hstrip, hlead, htrail]
  refine ⟨?_, ?_⟩
  · show parseJsonL (stripFencesL ("```" ++ tag ++ "\n" ++ s ++ "\n```" : String).data) = some v
    rw [hstr]
    exact hp
  · unfold normalizeResponse
    rw [show parseStage ("```" ++ tag ++ "\n" ++ s ++ "\n```")
        = some v from by
      show parseJsonL (stripFencesL ("```" ++ tag ++ "\n" ++ s ++ "\n```" : String).data) = some v
      rw [hstr]
      exact hp]

/-- C6 (witness). -/
theorem c6_witness :
    isFenceTagB "JSON" = true ∧ trimmedB "[1]".data = true ∧
    parseJsonL "[1]".data = some (Json.arr [Json.num "1"]) ∧
    parseStage ("```" ++ "JSON" ++ "\n" ++ "[1]" ++ "\n```") = some (Json.arr [Json.num "1"]) :=
  ⟨rfl, rfl, rfl, (c6_fence_stripping "JSON" "[1]" _ rfl rfl rfl).1⟩

/- ----------------------------------------------------------------------------
Claims C7, C2, C9, C8.
---------------------------------------------------------------------------- -/

/-- C7.  Invoking audit_claim with an unconfigured client fails with the
Unconfigured error kind and performs zero outbound network calls, whatever
the bill, policy, uploaded text and model arguments are: the guard fires
before the user message is assembled or the oracle is consulted. -/
theorem c7_unconfigured_no_network (bill pol upl model : String) :
    audit_claim none bill pol upl model = (.error .unconfigured, 0) := rfl

/-- C2 (code bug).  The structured policy record carries ten sub-limit
entries, among them organ_donor_inr with value 100000 and
domiciliary_treatment_inr with value 20000, yet the compact prompt rendering
contains neither key (in any spelling) nor the formatted value 100,000, while
rendering the other sub-limits; the spec requires every sub-limit to appear. -/
theorem c2_policy_prompt_omits_sub_limits :
    GENERALISED_POLICY.sub_limits.length = 10 ∧
    ("organ_donor_inr", 100000) ∈ GENERALISED_POLICY.sub_limits ∧
    ("domiciliary_treatment_inr", 20000) ∈ GENERALISED_POLICY.sub_limits ∧
    containsStr "Room rent: ₹5,000/day" get_policy_as_prompt_text = true ∧
    containsStr "ICU: ₹10,000/day" get_policy_as_prompt_text = true ∧
    containsStr "organ" get_policy_as_prompt_text = false ∧
    containsStr "omiciliary" get_policy_as_prompt_text = false ∧
    containsStr "100,000" get_policy_as_prompt_text = false := by
  refine ⟨rfl, by simp [GENERALISED_POLICY], by simp [GENERALISED_POLICY], ?_, ?_, ?_, ?_, ?_⟩ <;> rfl

/-- C9.  For all inputs, the assembled user message consists of the four
segments in the fixed order few-shot examples, baseline policy, uploaded
policy, bill, each wrapped in its tag-like delimiter pair, followed by the
closing instruction; assembly is a total function of the three strings. -/
theorem c9_segment_order (bill pol upl : String) :
    ∃ ex pb up bl : List Char,
      (build_user_message bill pol upl).data =
        "<examples>".data ++ ex ++ "</examples>".data ++
        "\n\n\n    ".data ++ "<policy_baseline>".data ++ pb ++ "</policy_baseline>".data ++
        "\n\n    ".data ++ "<uploaded_policy>".data ++ up ++ "</uploaded_policy>".data ++
        "\n\n    ".data ++ "<bill>".data ++ bl ++ "</bill>".data ++
        "\n\n    ".data ++ "Now perform the full audit and return the JSON object.".data := by
  refine ⟨'\n' :: '\n' :: clearBlank FS_MID.data ++ ['\n', '\n'],
    '\n' :: clearBlank (SP4 ++ pol.data) ++ '\n' :: SP4,
    '\n' :: clearBlank (SP4 ++ pyUploadedL upl) ++ '\n' :: SP4,
    '\n' :: clearBlank (SP4 ++ bill.data) ++ '\n' :: SP4, ?_⟩
  rw [build_user_message_eq]
  simp [MSG_CORE, SP4, EX_OPEN, EX_CLOSE, PB_OPEN, PB_CLOSE, UP_OPEN, UP_CLOSE,
    BI_OPEN, BI_CLOSE, NOW_LINE, List.append_assoc]

theorem cb_fb_line : clearBlank (SP4 ++ FB_PHRASE.data) = SP4 ++ FB_PHRASE.data := rfl

/-- C8 (counterexample).  The claim says a non-blank uploadedPolicyText is
embedded as-is in the assembled message.  The non-blank text consisting of
two content lines separated by a line holding a single space is not a
substring of the assembled message: dedent blanks the whitespace-only line. -/
theorem c8_counterexample :
    isBlank "x\n \ny" = false ∧
    containsStr "x\n \ny" (build_user_message "" "" "x\n \ny") = false :=
  ⟨rfl, by decide⟩

/-- C8 (amended).  When uploadedPolicyText is blank, the uploaded-policy
segment of the assembled message carries the literal fallback phrase; when it
is non-blank, the segment carries the text with its whitespace-only lines
blanked by dedent, hence the text itself verbatim (indented under the opening
tag) whenever that normalization leaves it unchanged. -/
theorem c8_uploaded_segment_amended :
    (∀ bill pol upl : String, isBlank upl = true →
      ∃ x y, (build_user_message bill pol upl).data =
        x ++ ("<uploaded_policy>\n    No insurer-specific policy uploaded. Use baseline only.\n    </uploaded_policy>" : String).data ++ y) ∧
    (∀ bill pol upl : String, isBlank upl = false →
      clearBlank (SP4 ++ upl.data) = SP4 ++ upl.data →
      ∃ x y, (build_user_message bill pol upl).data =
        x ++ ("<uploaded_policy>\n    " : String).data ++ upl.data ++
          ("\n    </uploaded_policy>" : String).data ++ y) := by
  constructor
  · intro bill pol upl hblank
    refine ⟨EX_OPEN ++ '\n' :: '\n' :: clearBlank FS_MID.data ++ '\n' :: '\n' ::
        EX_CLOSE ++ '\n' :: '\n' :: '\n' :: PB_OPEN ++ '\n' ::
        clearBlank (SP4 ++ pol.data) ++ '\n' :: PB_CLOSE ++ '\n' :: '\n' :: SP4,
      '\n' :: '\n' :: BI_OPEN ++ '\n' :: clearBlank (SP4 ++ bill.data) ++ '\n' ::
        BI_CLOSE ++ '\n' :: '\n' :: NOW_LINE, ?_⟩
    rw [build_user_message_eq,
      show pyUploadedL upl = FB_PHRASE.data from by unfold pyUploadedL; rw [hblank]; rfl]
    unfold MSG_CORE
    rw [cb_fb_line]
    simp [SP4, EX_OPEN, EX_CLOSE, PB_OPEN, PB_CLOSE, UP_OPEN,
      UP_CLOSE, BI_OPEN, BI_CLOSE, NOW_LINE, FB_PHRASE, List.append_assoc]
  · intro bill pol upl hblank hkeep
    refine ⟨EX_OPEN ++ '\n' :: '\n' :: clearBlank FS_MID.data ++ '\n' :: '\n' ::
        EX_CLOSE ++ '\n' :: '\n' :: '\n' :: PB_OPEN ++ '\n' ::
        clearBlank (SP4 ++ pol.data) ++ '\n' :: PB_CLOSE ++ '\n' :: '\n' :: SP4,
      '\n' :: '\n' :: BI_OPEN ++ '\n' :: clearBlank (SP4 ++ bill.data) ++ '\n' ::
        BI_CLOSE ++ '\n' :: '\n' :: NOW_LINE, ?_⟩
    rw [build_user_message_eq,
      show pyUploadedL upl = upl.data from by unfold pyUploadedL; rw [hblank]; rfl]
    unfold MSG_CORE
    rw [hkeep]
    simp [SP4, EX_OPEN, EX_CLOSE, PB_OPEN, PB_CLOSE, UP_OPEN,
      UP_CLOSE, BI_OPEN, BI_CLOSE, NOW_LINE, List.append_assoc]

/-- C8 (witness). -/
theorem c8_amended_witness :
    (∃ x y, (build_user_message "b" "p" " ").data =
      x ++ ("<uploaded_policy>\n    No insurer-specific policy uploaded. Use baseline only.\n    </uploaded_policy>" : String).data ++ y) ∧
    (∃ x y, (build_user_message "b" "p" "text").data =
      x ++ ("<uploaded_policy>\n    " : String).data ++ "text".data ++
        ("\n    </uploaded_policy>" : String).data ++ y) :=
  ⟨c8_uploaded_segment_amended.1 "b" "p" " " rfl,
   c8_uploaded_segment_amended.2 "b" "p" "text" rfl rfl⟩
